import Mathlib

/-!
Verification of the FinSentiment client-side scripts (main.js, chart.js,
spinner.js) against their natural-language specification.  Each JavaScript
event handler or helper is shallowly embedded as a pure Lean function over an
explicit state type; DOM lookups that can fail become Option / Except values.
-/

/-! ## Vote control (initVoteButtons, main.js)

A post or comment holds an upvote button, a downvote button and a vote-count
text node.  The click handler reads the counter, inspects the clicked button's
`active` class and its sibling's, applies a delta and writes the flags back.
The state of one vote-button pair is the two `active` flags plus the parsed
integer counter. -/

structure VoteState where
  upActive : Bool
  downActive : Bool
  count : Int
deriving DecidableEq, Repr

/-- The `active` class of the clicked button (`this.classList.contains('active')`). -/
def clickedActive (isUpvote : Bool) (s : VoteState) : Bool :=
  if isUpvote then s.upActive else s.downActive

/-- The `active` class of the sibling button found by
`parentEl.querySelector('.downvote' / '.upvote')`. -/
def siblingActive (isUpvote : Bool) (s : VoteState) : Bool :=
  if isUpvote then s.downActive else s.upActive

/-- Write the clicked button's `active` class (classList.add / classList.remove). -/
def setClicked (isUpvote : Bool) (b : Bool) (s : VoteState) : VoteState :=
  if isUpvote then { s with upActive := b } else { s with downActive := b }

/-- Write the sibling button's `active` class. -/
def setSibling (isUpvote : Bool) (b : Bool) (s : VoteState) : VoteState :=
  if isUpvote then { s with downActive := b } else { s with upActive := b }

/-- The vote-button click handler of `initVoteButtons` (main.js lines 33-80),
for a pair whose parent container, counter and sibling button all exist:
if the clicked button is active it is deactivated and the counter moves by
-1 (upvote) or +1 (downvote); otherwise the button is activated, and if the
sibling was active it is deactivated and the counter moves by +2 / -2, else
by +1 / -1.  The updated counter is written back to the DOM text node. -/
def voteButtonClick (isUpvote : Bool) (s : VoteState) : VoteState :=
  if clickedActive isUpvote s then
    let s1 := setClicked isUpvote false s
    { s1 with count := s1.count + (if isUpvote then -1 else 1) }
  else
    let s1 := setClicked isUpvote true s
    if siblingActive isUpvote s1 then
      let s2 := setSibling isUpvote false s1
      { s2 with count := s2.count + (if isUpvote then 2 else -2) }
    else
      { s1 with count := s1.count + (if isUpvote then 1 else -1) }

/-- Modelled from the spec wording of the vote contract, for comparison with
`voteButtonClick`: activating a button with no active sibling writes n+1
(upvote) or n-1 (downvote); activating while the sibling was active writes
n+2 / n-2 and deactivates the sibling; clicking an already-active button
deactivates it and writes n-1 (upvote) or n+1 (downvote). -/
def voteClickSpec (isUpvote : Bool) (s : VoteState) : VoteState :=
  if clickedActive isUpvote s then
    setClicked isUpvote false { s with count := s.count + (if isUpvote then -1 else 1) }
  else if siblingActive isUpvote s then
    setSibling isUpvote false
      (setClicked isUpvote true { s with count := s.count + (if isUpvote then 2 else -2) })
  else
    setClicked isUpvote true { s with count := s.count + (if isUpvote then 1 else -1) }

/-- At most one of the two vote buttons carries the `active` class. -/
def atMostOneActive (s : VoteState) : Prop :=
  ¬ (s.upActive = true ∧ s.downActive = true)

instance (s : VoteState) : Decidable (atMostOneActive s) := by
  unfold atMostOneActive; infer_instance

/-- A finite sequence of clicks on the pair, `true` = upvote button. -/
def voteClicks (clicks : List Bool) (s : VoteState) : VoteState :=
  clicks.foldl (fun st b => voteButtonClick b st) s

/-- C1: on every click of a vote button whose container and counter exist, the
handler writes back exactly one of four deltas, as the spec's four cases
describe; the handler coincides with the spec's case table on every state, and
the written counter differs from the read one by 1, -1, 2 or -2. -/
theorem voteButtonClick_matches_spec (isUpvote : Bool) (s : VoteState) :
    voteButtonClick isUpvote s = voteClickSpec isUpvote s ∧
    ((voteButtonClick isUpvote s).count - s.count = 1 ∨
     (voteButtonClick isUpvote s).count - s.count = -1 ∨
     (voteButtonClick isUpvote s).count - s.count = 2 ∨
     (voteButtonClick isUpvote s).count - s.count = -2) := by
  obtain ⟨u, d, n⟩ := s
  cases isUpvote <;> cases u <;> cases d <;>
    simp [voteButtonClick, voteClickSpec, clickedActive, siblingActive,
      setClicked, setSibling]

/-- One click always leaves at most one button active, whatever the state was. -/
theorem voteButtonClick_atMostOne (b : Bool) (s : VoteState) :
    atMostOneActive (voteButtonClick b s) := by
  obtain ⟨u, d, n⟩ := s
  cases b <;> cases u <;> cases d <;>
    simp [voteButtonClick, atMostOneActive, clickedActive, siblingActive,
      setClicked, setSibling]

/-- C2: from a state with at most one vote button active, any finite sequence
of clicks on either button leaves at most one of the two buttons active. -/
theorem voteClicks_atMostOneActive (clicks : List Bool) (s : VoteState)
    (h : atMostOneActive s) : atMostOneActive (voteClicks clicks s) := by
  induction clicks generalizing s with
  | nil => exact h
  | cons b rest ih => exact ih (voteButtonClick b s) (voteButtonClick_atMostOne b s)

/-- Witness for C2 at a concrete pair: starting from the spec's example state
(count 10, nothing active), the click sequence upvote, downvote, downvote
leaves at most one button active. -/
theorem voteClicks_atMostOneActive_witness :
    atMostOneActive (voteClicks [true, false, false] ⟨false, false, 10⟩) :=
  voteClicks_atMostOneActive [true, false, false] ⟨false, false, 10⟩ (by decide)

/-! ## Text expansion control (initExpandTextButtons, main.js)

The handler toggles the `expanded` class on the `.post-text` container, then
sets the button label and the `.post-text-fade` inline display style from the
new class state.  The state is the class flag, the button's text content and
the fade element's inline `display` value (modelled with the fade element
present, as the claim's state includes it). -/

structure ExpandState where
  expanded : Bool
  buttonLabel : String
  fadeDisplay : String
deriving DecidableEq, Repr

/-- The expand-button click handler of `initExpandTextButtons` (main.js lines
91-116), for a post whose `.post-text` container exists:
`classList.toggle('expanded')`, then label `Show less` and fade display
`none` when now expanded, else label `Read more` and fade display `block`. -/
def expandButtonClick (s : ExpandState) : ExpandState :=
  let nowExpanded := !s.expanded
  if nowExpanded then
    { expanded := nowExpanded, buttonLabel := "Show less", fadeDisplay := "none" }
  else
    { expanded := nowExpanded, buttonLabel := "Read more", fadeDisplay := "block" }

/-- The label and fade display agree with the `expanded` flag; every state
produced by a click has this shape. -/
def expandStateConsistent (s : ExpandState) : Prop :=
  (s.expanded = true ∧ s.buttonLabel = "Show less" ∧ s.fadeDisplay = "none") ∨
  (s.expanded = false ∧ s.buttonLabel = "Read more" ∧ s.fadeDisplay = "block")

/-- Counterexample to C6 as stated: on the server-rendered initial state
(collapsed, label `Read more`, fade element with empty inline display), two
clicks do not restore the state — the fade display ends as `block`, not the
original empty string. -/
theorem expandButtonClick_not_involution :
    expandButtonClick (expandButtonClick ⟨false, "Read more", ""⟩) ≠
      (⟨false, "Read more", ""⟩ : ExpandState) := by
  decide

/-- C6 amended: two consecutive clicks always restore the `expanded` class
flag; they restore the button label and the fade display as well exactly on
states whose label and fade display already match the flag — in particular on
every state produced by a click — so the handler is an involution on those
consistent states. -/
theorem expandButtonClick_involution_on_consistent (s : ExpandState) :
    (expandStateConsistent s → expandButtonClick (expandButtonClick s) = s) ∧
    (expandButtonClick (expandButtonClick s)).expanded = s.expanded ∧
    expandStateConsistent (expandButtonClick s) := by
  obtain ⟨e, l, f⟩ := s
  refine ⟨?_, ?_, ?_⟩
  · rintro (⟨rfl, rfl, rfl⟩ | ⟨rfl, rfl, rfl⟩) <;> rfl
  · cases e <;> rfl
  · cases e with
    | false => exact Or.inl ⟨rfl, rfl, rfl⟩
    | true => exact Or.inr ⟨rfl, rfl, rfl⟩

/-! ## Filter-select change (initFormSubmissions, main.js)

On `change` of a `.filter-select`, the handler reads the current query string
into a `URLSearchParams`, calls `set(this.name, this.value)` and navigates to
`window.location.pathname + '?' + urlParams.toString()`.  The query string is
modelled as its list of key-value pairs; `set` follows the URL standard: the
first pair with the given key has its value replaced and the remaining pairs
with that key are removed, and a missing key is appended at the end. -/

def urlParamsSet : List (String × String) → String → String → List (String × String)
  | [], k, v => [(k, v)]
  | p :: rest, k, v =>
    if p.1 = k then (k, v) :: rest.filter (fun q => ¬ (q.1 = k))
    else p :: urlParamsSet rest k v

/-- The navigation target assigned to `window.location.href`. -/
structure NavTarget where
  pathname : String
  params : List (String × String)
deriving DecidableEq, Repr

/-- The filter-select change handler of `initFormSubmissions` (main.js lines
268-280): merge the changed field into the current query parameters and
navigate to the current pathname with the updated query. -/
def filterSelectChange (pathname : String) (search : List (String × String))
    (selName selValue : String) : NavTarget :=
  { pathname := pathname, params := urlParamsSet search selName selValue }

/-- The values listed for a key, in order. -/
def valuesOf (k : String) (ps : List (String × String)) : List String :=
  (ps.filter (fun p => p.1 = k)).map Prod.snd

theorem valuesOf_filter_ne (k : String) (ps : List (String × String)) :
    valuesOf k (ps.filter (fun q => ¬ (q.1 = k))) = [] := by
  induction ps with
  | nil => rfl
  | cons p rest ih =>
    by_cases h : p.1 = k <;> simpa [valuesOf, List.filter_cons, h] using ih

theorem urlParamsSet_valuesOf (q : List (String × String)) (k v : String) :
    valuesOf k (urlParamsSet q k v) = [v] := by
  induction q with
  | nil => simp [urlParamsSet, valuesOf]
  | cons p rest ih =>
    by_cases h : p.1 = k
    · simp only [urlParamsSet, if_pos h, valuesOf, List.filter_cons]
      simp [valuesOf_filter_ne k rest, valuesOf] at *
    · simp only [urlParamsSet, if_neg h]
      simpa [valuesOf, List.filter_cons, h] using ih

theorem urlParamsSet_filter_ne (q : List (String × String)) (k v : String) :
    (urlParamsSet q k v).filter (fun p => ¬ (p.1 = k)) =
      q.filter (fun p => ¬ (p.1 = k)) := by
  induction q with
  | nil => simp [urlParamsSet]
  | cons p rest ih =>
    by_cases h : p.1 = k
    · simp [urlParamsSet, if_pos h, List.filter_cons, h, List.filter_filter]
    · simp only [urlParamsSet, if_neg h]
      rw [List.filter_cons, List.filter_cons]
      simp only [ih]

/-- C3: the filter-select change handler navigates to the current pathname
with the changed key set to the selected value and every other key-value pair
of the current query preserved unchanged; in particular `?sort=new&page=2`
with `sort` changed to `top` yields `?sort=top&page=2`. -/
theorem filterSelectChange_merges_query (pathname : String)
    (q : List (String × String)) (selName selValue : String) :
    (filterSelectChange pathname q selName selValue).pathname = pathname ∧
    valuesOf selName (filterSelectChange pathname q selName selValue).params = [selValue] ∧
    ((filterSelectChange pathname q selName selValue).params.filter
        (fun p => ¬ (p.1 = selName)) =
      q.filter (fun p => ¬ (p.1 = selName))) ∧
    filterSelectChange "/posts" [("sort", "new"), ("page", "2")] "sort" "top" =
      ⟨"/posts", [("sort", "top"), ("page", "2")]⟩ := by
  refine ⟨rfl, urlParamsSet_valuesOf q selName selValue,
    urlParamsSet_filter_ne q selName selValue, by decide⟩

/-! ## Sentiment classification (main.js) and chart color maps (chart.js)

Compound scores are modelled as rationals; the source compares them against
the literals 0.05 and -0.05. -/

/-- `getSentimentClass` (main.js lines 321-329). -/
def getSentimentClass (score : ℚ) : String :=
  if score ≥ 0.05 then "sentiment-positive"
  else if score ≤ -0.05 then "sentiment-negative"
  else "sentiment-neutral"

/-- `getSentimentText` (main.js lines 334-342). -/
def getSentimentText (score : ℚ) : String :=
  if score ≥ 0.05 then "Positive"
  else if score ≤ -0.05 then "Negative"
  else "Neutral"

/-- The per-bar background color of `createEntitySentimentChart`
(chart.js lines 221-225). -/
def entityBackgroundColor (score : ℚ) : String :=
  if score ≥ 0.05 then "rgba(76, 175, 80, 0.6)"
  else if score ≤ -0.05 then "rgba(244, 67, 54, 0.6)"
  else "rgba(158, 158, 158, 0.6)"

/-- The per-bar border color of `createEntitySentimentChart`
(chart.js lines 227-231). -/
def entityBorderColor (score : ℚ) : String :=
  if score ≥ 0.05 then "rgba(76, 175, 80, 1)"
  else if score ≤ -0.05 then "rgba(244, 67, 54, 1)"
  else "rgba(158, 158, 158, 1)"

/-- The per-point color of `createCommentTimelineChart`
(chart.js lines 305-309). -/
def timelinePointColor (score : ℚ) : String :=
  if score ≥ 0.05 then "rgba(76, 175, 80, 1)"
  else if score ≤ -0.05 then "rgba(244, 67, 54, 1)"
  else "rgba(158, 158, 158, 1)"

theorem bandEqLeft {A B C : String} (s : ℚ) (hAB : A ≠ B) (hAC : A ≠ C) :
    ((if s ≥ 0.05 then A else if s ≤ -0.05 then B else C) = A) ↔ s ≥ 0.05 := by
  split_ifs with h1 h2
  · simpa using h1
  · simp [Ne.symm hAB, h1]
  · simp [Ne.symm hAC, h1]

theorem bandEqMid {A B C : String} (s : ℚ) (hAB : A ≠ B) (hBC : B ≠ C) :
    ((if s ≥ 0.05 then A else if s ≤ -0.05 then B else C) = B) ↔ s ≤ -0.05 := by
  split_ifs with h1 h2
  · simp only [hAB, false_iff]
    intro h
    linarith
  · simpa using h2
  · simp [Ne.symm hBC, h2]

theorem bandEqRight {A B C : String} (s : ℚ) (hAC : A ≠ C) (hBC : B ≠ C) :
    ((if s ≥ 0.05 then A else if s ≤ -0.05 then B else C) = C) ↔
      (-0.05 < s ∧ s < 0.05) := by
  split_ifs with h1 h2
  · simp only [hAC, false_iff]
    rintro ⟨ha, hb⟩
    linarith
  · simp only [hBC, false_iff]
    rintro ⟨ha, hb⟩
    linarith
  · simp only [true_iff]
    exact ⟨by linarith, by linarith⟩

/-- C4: `getSentimentClass`, `getSentimentText` and the chart color maps
classify a score as positive iff it is at least 0.05, negative iff it is at
most -0.05, and neutral strictly in between; in particular 0.05 is positive,
-0.05 is negative and 0.049 is neutral. -/
theorem sentiment_classification (s : ℚ) :
    (getSentimentClass s = "sentiment-positive" ↔ s ≥ 0.05) ∧
    (getSentimentClass s = "sentiment-negative" ↔ s ≤ -0.05) ∧
    (getSentimentClass s = "sentiment-neutral" ↔ (-0.05 < s ∧ s < 0.05)) ∧
    (getSentimentText s = "Positive" ↔ s ≥ 0.05) ∧
    (getSentimentText s = "Negative" ↔ s ≤ -0.05) ∧
    (getSentimentText s = "Neutral" ↔ (-0.05 < s ∧ s < 0.05)) ∧
    (entityBackgroundColor s = "rgba(76, 175, 80, 0.6)" ↔ s ≥ 0.05) ∧
    (entityBackgroundColor s = "rgba(244, 67, 54, 0.6)" ↔ s ≤ -0.05) ∧
    (entityBackgroundColor s = "rgba(158, 158, 158, 0.6)" ↔ (-0.05 < s ∧ s < 0.05)) ∧
    (entityBorderColor s = "rgba(76, 175, 80, 1)" ↔ s ≥ 0.05) ∧
    (entityBorderColor s = "rgba(244, 67, 54, 1)" ↔ s ≤ -0.05) ∧
    (entityBorderColor s = "rgba(158, 158, 158, 1)" ↔ (-0.05 < s ∧ s < 0.05)) ∧
    (timelinePointColor s = "rgba(76, 175, 80, 1)" ↔ s ≥ 0.05) ∧
    (timelinePointColor s = "rgba(244, 67, 54, 1)" ↔ s ≤ -0.05) ∧
    (timelinePointColor s = "rgba(158, 158, 158, 1)" ↔ (-0.05 < s ∧ s < 0.05)) ∧
    getSentimentClass 0.05 = "sentiment-positive" ∧
    getSentimentClass (-0.05) = "sentiment-negative" ∧
    getSentimentClass 0.049 = "sentiment-neutral" ∧
    getSentimentText 0.05 = "Positive" ∧
    getSentimentText (-0.05) = "Negative" ∧
    getSentimentText 0.049 = "Neutral" := by
  refine ⟨bandEqLeft s (by decide) (by decide), bandEqMid s (by decide) (by decide),
    bandEqRight s (by decide) (by decide),
    bandEqLeft s (by decide) (by decide), bandEqMid s (by decide) (by decide),
    bandEqRight s (by decide) (by decide),
    bandEqLeft s (by decide) (by decide), bandEqMid s (by decide) (by decide),
    bandEqRight s (by decide) (by decide),
    bandEqLeft s (by decide) (by decide), bandEqMid s (by decide) (by decide),
    bandEqRight s (by decide) (by decide),
    bandEqLeft s (by decide) (by decide), bandEqMid s (by decide) (by decide),
    bandEqRight s (by decide) (by decide),
    ?_, ?_, ?_, ?_, ?_, ?_⟩ <;>
  norm_num [getSentimentClass, getSentimentText]

/-! ## Chart tooltip formatting (chart.js)

`Number.prototype.toFixed(1)` on an exact rational: negate a negative value
and emit a leading minus sign, then round to the nearest tenth, ties away
from zero, and print one decimal digit. -/

/-- toFixed(1) of a non-negative rational: the integer nearest to ten times
the value (ties upward), printed with one decimal digit. -/
def toFixed1abs (x : ℚ) : String :=
  let y := x * 10 + 1/2
  let n : Nat := y.num.toNat / y.den
  Nat.repr (n / 10) ++ "." ++ Nat.repr (n % 10)

/-- toFixed(1) of a rational. -/
def toFixed1 (q : ℚ) : String :=
  if q < 0 then "-" ++ toFixed1abs (-q) else toFixed1abs q

/-- The tooltip label callback of `createSentimentTrendChart` (chart.js lines
81-90): the dataset label with `': '` appended when non-empty, then, when the
parsed y value is not null, the value times 100 fixed to one decimal place
with a percent sign. -/
def trendTooltipLabel (datasetLabel : String) (parsedY : Option ℚ) : String :=
  let label := if datasetLabel = "" then datasetLabel else datasetLabel ++ ": "
  match parsedY with
  | some y => label ++ toFixed1 (y * 100) ++ "%"
  | none => label

/-- The tooltip label callback of `createSentimentPieChart` (chart.js lines
179-189): the slice label with `': '` appended when non-empty, then, when the
parsed value is not null, the value fixed to one decimal place with a percent
sign — the parsed value is NOT multiplied by 100. -/
def pieTooltipLabel (sliceLabel : String) (parsed : Option ℚ) : String :=
  let label := if sliceLabel = "" then sliceLabel else sliceLabel ++ ": "
  match parsed with
  | some v => label ++ toFixed1 v ++ "%"
  | none => label

/-- Counterexample to C9 as stated: the pie chart's tooltip renders the data
point 1/2 as `0.5%`, not as the claimed value-times-100 rendering `50.0%`;
only the trend chart multiplies by 100. -/
theorem pieTooltipLabel_not_times100 :
    pieTooltipLabel "Positive" (some (1/2)) = "Positive: 0.5%" ∧
    pieTooltipLabel "Positive" (some (1/2)) ≠
      "Positive: " ++ toFixed1 ((1/2 : ℚ) * 100) ++ "%" := by
  have h1 : toFixed1 (1/2) = "0.5" := by
    rw [toFixed1, if_neg (by norm_num), toFixed1abs]
    norm_num
    decide
  have h2 : toFixed1 ((1/2 : ℚ) * 100) = "50.0" := by
    rw [toFixed1, if_neg (by norm_num), toFixed1abs]
    norm_num
    decide
  have hp : pieTooltipLabel "Positive" (some (1/2)) =
      ("Positive" ++ ": ") ++ toFixed1 (1/2) ++ "%" := rfl
  refine ⟨?_, ?_⟩
  · rw [hp, h1]
    decide
  · rw [hp, h1, h2]
    decide

/-- C9 amended: for a percentage-valued data point the trend chart's tooltip
renders the value multiplied by 100 and fixed to one decimal place with a
percent sign, while the distribution pie chart's tooltip — whose series is
already expressed in percent — renders the value itself fixed to one decimal
place with a percent sign, without multiplying; the trend label of a ratio
therefore equals the pie label of the corresponding percentage. -/
theorem tooltip_percent_formatting (lbl : String) (v : ℚ) :
    trendTooltipLabel lbl (some v) =
      (if lbl = "" then lbl else lbl ++ ": ") ++ toFixed1 (v * 100) ++ "%" ∧
    pieTooltipLabel lbl (some v) =
      (if lbl = "" then lbl else lbl ++ ": ") ++ toFixed1 v ++ "%" ∧
    trendTooltipLabel lbl (some v) = pieTooltipLabel lbl (some (v * 100)) ∧
    trendTooltipLabel "Positive" (some (1/2)) = "Positive: 50.0%" := by
  refine ⟨rfl, rfl, rfl, ?_⟩
  have h2 : toFixed1 ((1/2 : ℚ) * 100) = "50.0" := by
    rw [toFixed1, if_neg (by norm_num), toFixed1abs]
    norm_num
    decide
  have ht : trendTooltipLabel "Positive" (some (1/2)) =
      ("Positive" ++ ": ") ++ toFixed1 ((1/2 : ℚ) * 100) ++ "%" := rfl
  rw [ht, h2]
  decide

/-! ## Reply forms (initCommentActions, main.js, the `reply` branch)

A comment's subtree is modelled by the list of its `.reply-form` nodes in
document order; `querySelector('.reply-form')` returns the first of them.
Each form node carries an identity (to express that a later click reuses the
same element) and its inline `display` style: a freshly created form has no
inline display (empty string) and is visible; the toggle writes `none` or
`block`. -/

structure ReplyForm where
  ident : Nat
  display : String
deriving DecidableEq, Repr

/-- The `reply` branch of the comment-action click handler
(main.js lines 195-238), for a comment whose `.comment` and
`.comment-actions` ancestors exist.  `freshIdent` is the identity the newly
created node would get; it is used only when no form exists yet.  If a form
exists, its display is toggled (`none` when it was visible, i.e. display not
`none`; else `block`); otherwise a new form node is appended after the
actions row. -/
def replyClick (freshIdent : Nat) : List ReplyForm → List ReplyForm
  | [] => [{ ident := freshIdent, display := "" }]
  | f :: rest =>
    { f with display := if f.display = "none" then "block" else "none" } :: rest

/-- A sequence of clicks on the comment's reply action; the list supplies the
identity each click would use for a newly created node. -/
def replyClicks (idents : List Nat) (forms : List ReplyForm) : List ReplyForm :=
  idents.foldl (fun fs i => replyClick i fs) forms

theorem replyClick_singleton (i : Nat) (f : ReplyForm) :
    replyClick i [f] = [{ f with display := if f.display = "none" then "block" else "none" }] :=
  rfl

theorem replyClicks_singleton_ident (idents : List Nat) (f : ReplyForm) :
    (replyClicks idents [f]).map ReplyForm.ident = [f.ident] := by
  induction idents generalizing f with
  | nil => rfl
  | cons i rest ih => exact ih _

/-- C5: starting from a comment with no reply form, the first reply click
creates the one form and every later click reuses that same node (the node
identities after any click sequence are exactly the first click's), only
toggling its display; a click on an existing form changes nothing but the
first form's display; and no sequence of clicks ever yields more than one
`.reply-form` node. -/
theorem replyClicks_at_most_one_form (firstIdent : Nat) (idents : List Nat)
    (f : ReplyForm) (rest : List ReplyForm) :
    (replyClicks (firstIdent :: idents) []).map ReplyForm.ident = [firstIdent] ∧
    (replyClicks (firstIdent :: idents) []).length = 1 ∧
    replyClick firstIdent (f :: rest) =
      { f with display := if f.display = "none" then "block" else "none" } :: rest := by
  have h1 : (replyClicks (firstIdent :: idents) []).map ReplyForm.ident = [firstIdent] := by
    have : replyClicks (firstIdent :: idents) [] =
        replyClicks idents [{ ident := firstIdent, display := "" }] := rfl
    rw [this, replyClicks_singleton_ident]
  refine ⟨h1, ?_, rfl⟩
  have := congrArg List.length h1
  simpa using this

/-! ## Chart rendering (chart.js)

The four render functions share the same prologue: resolve the canvas by id
(log and return if missing), look up the chart instance bound to that canvas
in the library's registry (`Chart.getChart`), destroy it if present, then
construct a new chart on the canvas.  The registry is modelled as the list of
live chart instances, each bound to one canvas and tagged with which render
function built it; the DOM is the list of existing canvas ids. -/

inductive ChartKind
  | trend
  | pie
  | entity
  | timeline
deriving DecidableEq, Repr

structure ChartInstance where
  ident : Nat
  canvasId : String
  kind : ChartKind
deriving DecidableEq, Repr

structure ChartRegistry where
  charts : List ChartInstance
  nextIdent : Nat
deriving DecidableEq, Repr

/-- The registry before any render call: no live chart instance. -/
def emptyRegistry : ChartRegistry := { charts := [], nextIdent := 0 }

/-- `Chart.getChart(canvas)`: the live instance bound to the canvas. -/
def getChart (canvasId : String) (charts : List ChartInstance) : Option ChartInstance :=
  charts.find? (fun c => c.canvasId = canvasId)

/-- `existingChart.destroy()`: remove the instance from the registry. -/
def destroyChart (c : ChartInstance) (charts : List ChartInstance) : List ChartInstance :=
  charts.filter (fun c2 => ¬ (c2 = c))

/-- The shared prologue of the four render functions (chart.js lines 16-29,
134-147, 208-218, 292-302): if the canvas id resolves to no element, log and
return with the registry untouched; otherwise destroy the chart bound to the
canvas, if any, and construct the new chart on it. -/
def renderChart (dom : List String) (canvasId : String) (k : ChartKind)
    (st : ChartRegistry) : ChartRegistry :=
  if canvasId ∈ dom then
    let afterDestroy :=
      match getChart canvasId st.charts with
      | some existing => destroyChart existing st.charts
      | none => st.charts
    { charts := { ident := st.nextIdent, canvasId := canvasId, kind := k } :: afterDestroy,
      nextIdent := st.nextIdent + 1 }
  else st

/-- `createSentimentTrendChart` (chart.js lines 14-123); the date and series
arrays feed only the chart configuration, not the registry logic. -/
def createSentimentTrendChart (dom : List String) (canvasId : String)
    (_dates : List String) (_positive _negative _neutral : List ℚ)
    (st : ChartRegistry) : ChartRegistry :=
  renderChart dom canvasId ChartKind.trend st

/-- `createSentimentPieChart` (chart.js lines 132-198). -/
def createSentimentPieChart (dom : List String) (canvasId : String)
    (_positive _negative _neutral : ℚ) (st : ChartRegistry) : ChartRegistry :=
  renderChart dom canvasId ChartKind.pie st

/-- `createEntitySentimentChart` (chart.js lines 206-282). -/
def createEntitySentimentChart (dom : List String) (canvasId : String)
    (_labels : List String) (_scores : List ℚ) (st : ChartRegistry) : ChartRegistry :=
  renderChart dom canvasId ChartKind.entity st

/-- `createCommentTimelineChart` (chart.js lines 290-367). -/
def createCommentTimelineChart (dom : List String) (canvasId : String)
    (_timestamps : List String) (_scores : List ℚ) (st : ChartRegistry) : ChartRegistry :=
  renderChart dom canvasId ChartKind.timeline st

/-- One render call: which of the four functions is called and on which
canvas (their data arguments do not touch the registry). -/
def renderCall (dom : List String) (st : ChartRegistry) : String × ChartKind → ChartRegistry
  | (canvasId, ChartKind.trend) => createSentimentTrendChart dom canvasId [] [] [] [] st
  | (canvasId, ChartKind.pie) => createSentimentPieChart dom canvasId 0 0 0 st
  | (canvasId, ChartKind.entity) => createEntitySentimentChart dom canvasId [] [] st
  | (canvasId, ChartKind.timeline) => createCommentTimelineChart dom canvasId [] [] st

/-- A sequence of render calls starting from a registry state. -/
def renderCalls (dom : List String) (calls : List (String × ChartKind))
    (st : ChartRegistry) : ChartRegistry :=
  calls.foldl (renderCall dom) st

/-- Distinct live instances are bound to distinct canvases. -/
def atMostOnePerCanvas (st : ChartRegistry) : Prop :=
  st.charts.Pairwise (fun a b => a.canvasId ≠ b.canvasId)

theorem renderChart_preserves (dom : List String) (canvasId : String)
    (k : ChartKind) (st : ChartRegistry) (h : atMostOnePerCanvas st) :
    atMostOnePerCanvas (renderChart dom canvasId k st) := by
  rw [renderChart]
  split_ifs with hdom
  · have hsymm : Symmetric (fun a b : ChartInstance => a.canvasId ≠ b.canvasId) :=
      fun a b hab => hab ∘ Eq.symm
    constructor
    · intro x hx
      cases hfind : getChart canvasId st.charts with
      | none =>
        rw [hfind] at hx
        have := List.find?_eq_none.mp hfind x hx
        simpa using fun hxc => this (by simpa using hxc.symm)
      | some existing =>
        rw [hfind] at hx
        have hex : existing ∈ st.charts := List.mem_of_find?_eq_some hfind
        have hexc : existing.canvasId = canvasId := by
          have := List.find?_some hfind
          simpa using this
        have hxmem : x ∈ st.charts := List.mem_of_mem_filter hx
        have hxne : x ≠ existing := by
          have := List.of_mem_filter hx
          simpa using this
        intro hxc
        exact (h.forall hsymm hxmem hex hxne) (hxc.symm.trans hexc.symm)
    · cases hfind : getChart canvasId st.charts with
      | none => exact h
      | some existing => exact h.sublist (List.filter_sublist st.charts)
  · exact h

/-- C7: each of the four render functions leaves the registry untouched when
the canvas id resolves to no element, and otherwise destroys the instance
bound to that canvas before constructing the new one, so after any sequence
of render calls at most one chart instance is bound to each canvas. -/
theorem renderCalls_at_most_one_per_canvas :
    (∀ (dom : List String) (calls : List (String × ChartKind)),
      atMostOnePerCanvas (renderCalls dom calls emptyRegistry)) ∧
    (∀ (dom : List String) (canvasId : String) (k : ChartKind) (st : ChartRegistry),
      ¬ canvasId ∈ dom → renderChart dom canvasId k st = st) ∧
    (∀ (dom : List String) (canvasId : String) (k : ChartKind) (st : ChartRegistry),
      canvasId ∈ dom →
        getChart canvasId (renderChart dom canvasId k st).charts =
          some { ident := st.nextIdent, canvasId := canvasId, kind := k }) := by
  refine ⟨?_, ?_, ?_⟩
  · intro dom calls
    have step : ∀ (st : ChartRegistry) (c : String × ChartKind), atMostOnePerCanvas st →
        atMostOnePerCanvas (renderCall dom st c) := by
      rintro st ⟨canvasId, k⟩ h
      cases k <;>
        exact renderChart_preserves dom canvasId _ st h
    have : ∀ (calls : List (String × ChartKind)) (st : ChartRegistry),
        atMostOnePerCanvas st → atMostOnePerCanvas (renderCalls dom calls st) := by
      intro calls
      induction calls with
      | nil => exact fun st h => h
      | cons c rest ih => exact fun st h => ih (renderCall dom st c) (step st c h)
    exact this calls emptyRegistry List.Pairwise.nil
  · intro dom canvasId k st hnot
    rw [renderChart, if_neg hnot]
  · intro dom canvasId k st hmem
    rw [renderChart, if_pos hmem]
    simp [getChart]

/-! ## Post and comment action dispatchers (initPostActions, initCommentActions)

Both handlers read `this.dataset.action` and then evaluate
`this.closest('.post').dataset.id` respectively
`this.closest('.comment').dataset.id` with no null check, so a click on an
action element without the matching ancestor throws a TypeError; the reply
branch additionally calls `.after` on `this.closest('.comment-actions')`
unchecked.  Every other lookup in the two handlers is guarded.  Evaluation is
modelled in `Except String`, an `error` being a thrown TypeError. -/

structure PostActionEnv where
  closestPost : Option String
  commentFormExists : Bool
  commentTextareaExists : Bool
  saved : Bool
  iconExists : Bool
  textExists : Bool
deriving DecidableEq, Repr

inductive PostActionEffect
  | scrolledToCommentForm (focusedTextarea : Bool)
  | commentFormMissing
  | copiedShareLink
  | saveToggled (nowSaved iconSet textSet : Bool)
  | loggedUnknown (actionType postId : String)
deriving DecidableEq, Repr

/-- The post-action click handler of `initPostActions` (main.js lines
127-176).  `closestPost` is the `data-id` of the nearest `.post` ancestor,
`none` when there is no such ancestor — in which case reading `.dataset.id`
of null throws before the switch is reached. -/
def postActionClick (env : PostActionEnv) (actionType : String) :
    Except String PostActionEffect :=
  match env.closestPost with
  | none => Except.error "TypeError: cannot read dataset.id of null"
  | some postId =>
    if actionType = "comment" then
      Except.ok (if env.commentFormExists then
          PostActionEffect.scrolledToCommentForm env.commentTextareaExists
        else PostActionEffect.commentFormMissing)
    else if actionType = "share" then
      Except.ok PostActionEffect.copiedShareLink
    else if actionType = "save" then
      Except.ok (PostActionEffect.saveToggled (!env.saved) env.iconExists env.textExists)
    else
      Except.ok (PostActionEffect.loggedUnknown actionType postId)

structure CommentActionEnv where
  closestComment : Option String
  closestActionsExists : Bool
  replyFormDisplay : Option String
  replyTextareaExists : Bool
deriving DecidableEq, Repr

inductive CommentActionEffect
  | replyToggled (nowVisible focusedTextarea : Bool)
  | replyCreated (focusedTextarea : Bool)
  | loggedUnknown (actionType commentId : String)
deriving DecidableEq, Repr

/-- The comment-action click handler of `initCommentActions` (main.js lines
187-243).  `closestComment` is the `data-id` of the nearest `.comment`
ancestor (`none` throws before the switch); in the reply branch,
`replyFormDisplay` is the existing `.reply-form` display style, `none` when
there is no form yet, and creating the form calls `.after` on the
`.comment-actions` ancestor, which throws when that ancestor is missing. -/
def commentActionClick (env : CommentActionEnv) (actionType : String) :
    Except String CommentActionEffect :=
  match env.closestComment with
  | none => Except.error "TypeError: cannot read dataset.id of null"
  | some commentId =>
    if actionType = "reply" then
      match env.replyFormDisplay with
      | some display =>
        let isVisible := ¬ (display = "none")
        Except.ok (CommentActionEffect.replyToggled (!isVisible)
          (!isVisible && env.replyTextareaExists))
      | none =>
        if env.closestActionsExists then
          Except.ok (CommentActionEffect.replyCreated env.replyTextareaExists)
        else
          Except.error "TypeError: cannot call after on null"
    else
      Except.ok (CommentActionEffect.loggedUnknown actionType commentId)

/-- Whether evaluation completed without throwing. -/
def runsWithoutThrow {α : Type} : Except String α → Bool
  | Except.ok _ => true
  | Except.error _ => false

/-- Counterexample to C8 as stated: a click on a `.post-action` element with
no `.post` ancestor throws (the handler dereferences
`this.closest('.post')` without a null check), and so does a click on a
`.comment-action` element with no `.comment` ancestor. -/
theorem postActionClick_throws_without_ancestor :
    runsWithoutThrow (postActionClick ⟨none, false, false, false, false, false⟩ "comment")
      = false ∧
    runsWithoutThrow (commentActionClick ⟨none, false, none, false⟩ "reply") = false := by
  decide

/-- C8 amended: the post-action handler throws exactly when the clicked
element has no `.post` ancestor, and the comment-action handler throws
exactly when there is no `.comment` ancestor or when the reply branch must
create a form and there is no `.comment-actions` ancestor; every other
lookup in the two dispatchers is null-checked, so with those ancestors
present the handlers complete without raising for every action type. -/
theorem actionDispatchers_throw_conditions (penv : PostActionEnv)
    (cenv : CommentActionEnv) (actionType : String) :
    runsWithoutThrow (postActionClick penv actionType) = penv.closestPost.isSome ∧
    runsWithoutThrow (commentActionClick cenv actionType) =
      (cenv.closestComment.isSome &&
        (if actionType = "reply" then
          cenv.replyFormDisplay.isSome || cenv.closestActionsExists
        else true)) := by
  constructor
  · obtain ⟨cp, cf, ct, sv, ic, tx⟩ := penv
    cases cp <;>
      simp [postActionClick, runsWithoutThrow] <;>
      split_ifs <;>
      simp [runsWithoutThrow]
  · obtain ⟨cc, ca, rf, rt⟩ := cenv
    cases cc <;> cases rf <;>
      simp [commentActionClick, runsWithoutThrow] <;>
      split_ifs <;>
      simp_all [runsWithoutThrow]

/-! ## Button spinner (spinner.js)

A button present in the document is its inner markup, its
`data-original-text` attribute (absent = `none`; `getAttribute` yields null)
and its disabled flag. -/

structure ButtonState where
  innerHTML : String
  dataOriginalText : Option String
  disabled : Bool
deriving DecidableEq, Repr

/-- The markup `addButtonSpinner` writes into the button. -/
def spinnerMarkup : String := "<span class=\"btn-spinner\"></span> Analyzing..."

/-- `addButtonSpinner` (spinner.js lines 152-166), for a button present in
the document: snapshot `innerHTML` into the `data-original-text` attribute,
replace the content with the spinner markup, and disable the button when
`disable` is set. -/
def addButtonSpinner (disable : Bool) (b : ButtonState) : ButtonState :=
  let b1 := { b with dataOriginalText := some b.innerHTML }
  let b2 := { b1 with innerHTML := spinnerMarkup }
  if disable then { b2 with disabled := true } else b2

/-- `removeButtonSpinner` (spinner.js lines 173-187), for a button present in
the document: read the `data-original-text` attribute and, when it is truthy
(not null and not the empty string), write it back to `innerHTML`; enable the
button when `enable` is set. -/
def removeButtonSpinner (enable : Bool) (b : ButtonState) : ButtonState :=
  let b1 :=
    match b.dataOriginalText with
    | some originalText =>
      if ¬ (originalText = "") then { b with innerHTML := originalText } else b
    | none => b
  if enable then { b1 with disabled := false } else b1

/-- Counterexample to C10 as stated: for a button whose original inner markup
is empty and which was originally disabled, removeButtonSpinner after a
single addButtonSpinner restores neither the inner markup (the falsy empty
snapshot is not written back, so the spinner markup stays) nor the enabled
state (the button ends enabled though it started disabled). -/
theorem buttonSpinner_no_restore_on_empty :
    ¬ ((removeButtonSpinner true (addButtonSpinner true ⟨"", none, true⟩)).innerHTML
        = (⟨"", none, true⟩ : ButtonState).innerHTML) ∧
    ¬ ((removeButtonSpinner true (addButtonSpinner true ⟨"", none, true⟩)).disabled
        = (⟨"", none, true⟩ : ButtonState).disabled) := by
  decide

/-- C10 amended: for every button present in the document whose original
inner markup is non-empty and which is initially enabled, removeButtonSpinner
after a single addButtonSpinner restores the original inner markup and the
enabled state (only the snapshot attribute is left behind); and a second
addButtonSpinner with no intervening remove overwrites the snapshot with the
spinner markup, so a subsequent removeButtonSpinner leaves the spinner glyph
and Analyzing text instead of the original content — the round trip holds
only when add and remove calls strictly alternate. -/
theorem buttonSpinner_round_trip (b : ButtonState) :
    (¬ (b.innerHTML = "") → b.disabled = false →
      removeButtonSpinner true (addButtonSpinner true b) =
        { b with dataOriginalText := some b.innerHTML }) ∧
    (addButtonSpinner true (addButtonSpinner true b)).dataOriginalText
      = some spinnerMarkup ∧
    (removeButtonSpinner true (addButtonSpinner true (addButtonSpinner true b))).innerHTML
      = spinnerMarkup := by
  obtain ⟨ih, dot, dis⟩ := b
  refine ⟨?_, rfl, ?_⟩
  · intro h1 h2
    simp only at h2
    subst h2
    simp [addButtonSpinner, removeButtonSpinner, h1]
  · simp [addButtonSpinner, removeButtonSpinner, spinnerMarkup]
